import Mathlib

/-!
Shallow embedding of the context-reconciliation core of the pnpm repository
(file src/pkg-manager/get-context/src/index.ts).

Modelling conventions:
* Paths are normalized absolute strings; `path.join a b` is `a ++ "/" ++ b`
  and `path.relative d1 d2 === ''` (the body of `dirsAreEqual`) is string
  equality of the two normalized paths.
* JavaScript `undefined` is `Option.none`; a `string[] | undefined` value is
  `Option (List String)`.
* ramda `equals` (deep structural equality) is decidable equality `==` on the
  corresponding Lean types.
* Filesystem effects are made explicit: a purge returns the list of paths
  handed to `rimraf`; I/O failures are values of an error type.
* External collaborators (checkCompatibility, readProjectsContext) are
  parameters of the functions that call them, per the spec section 6.
-/

namespace GetContext

/-- Model of `path.join(a, b)` on normalized path strings. -/
def pathJoin (a b : String) : String := a ++ "/" ++ b

/-- Source: `function dirsAreEqual (dir1, dir2) { return path.relative(dir1, dir2) === '' }`.
On normalized absolute paths, `path.relative` is empty exactly when the paths
are equal. -/
def dirsAreEqual (dir1 dir2 : String) : Bool := dir1 == dir2

/-- Model of `item.startsWith('.')`: the first character of the string is a
dot (stated on the character-list view of the string). -/
def startsWithDot (item : String) : Bool :=
  match item.data with
  | [] => false
  | c :: _ => c == '.'

/-- Source: `removeContentsOfDir(dir, virtualStoreDir)` reads the entries of
`dir` and calls `rimraf(path.join(dir, item))` for every entry that is NOT
skipped; an entry is skipped when its name starts with a dot, is not `.bin`,
is not `.modules.yaml` and its joined path is not the virtual store dir.
The model takes the directory listing as input and returns the names of the
entries that are removed (each removed entry is deleted at `pathJoin dir item`,
never at `dir` itself). -/
def removeContentsOfDir (dir : String) (virtualStoreDir : String)
    (items : List String) : List String :=
  items.filter fun item =>
    !(startsWithDot item && item != ".bin" && item != ".modules.yaml"
      && !dirsAreEqual (pathJoin dir item) virtualStoreDir)

/-- A Node.js filesystem error, carrying its `code` string (e.g. `ENOENT`). -/
structure FsError where
  code : String
deriving DecidableEq, Repr

/-- Source: `purgeModulesDirsOfImporter` wraps `removeContentsOfDir` in
`try/catch` and rethrows every error whose `code` is not `ENOENT`.
The model takes the outcome of the wrapped removal as input. -/
def purgeModulesDirsOfImporter (removal : Except FsError Unit) :
    Except FsError Unit :=
  match removal with
  | Except.ok u => Except.ok u
  | Except.error err =>
    if err.code != "ENOENT" then Except.error err else Except.ok ()

/-- JavaScript `p || undefined` on a `string[] | undefined` value: `undefined`
(falsy) maps to `undefined`, while any array — INCLUDING the empty array,
which is truthy in JavaScript — is kept as is. -/
def jsOrUndefined (p : Option (List String)) : Option (List String) :=
  match p with
  | none => none
  | some xs => some xs

/-- Truthiness of `p?.length` for `p : string[] | undefined`: true exactly
when the value is an array of non-zero length. -/
def jsNonEmpty (p : Option (List String)) : Bool :=
  match p with
  | none => false
  | some xs => xs.length != 0

/-- JavaScript `a ?? b`: `b` when `a` is nullish, else `a`. -/
def nullishCoalesce {α : Type} (a b : Option α) : Option α :=
  match a with
  | none => b
  | some x => some x

/-- The `nodeLinker` option: `'isolated' | 'hoisted' | 'pnp'`. -/
inductive NodeLinker where
  | isolated
  | hoisted
  | pnp
deriving DecidableEq, Repr

/-- Source: `getExtraNodePaths ({ extendNodePath = true, hoistPattern, nodeLinker,
virtualStoreDir })` returns `[path.join(virtualStoreDir, 'node_modules')]` when
`extendNodePath && nodeLinker === 'isolated' && hoistPattern?.length`, else `[]`.
`extendNodePath` is `Option Bool` because the TS parameter defaults to `true`
when the caller passes `undefined`. -/
def getExtraNodePaths (extendNodePath : Option Bool)
    (hoistPattern : Option (List String)) (nodeLinker : NodeLinker)
    (virtualStoreDir : String) : List String :=
  if extendNodePath.getD true && (nodeLinker == NodeLinker.isolated)
      && jsNonEmpty hoistPattern then
    [pathJoin virtualStoreDir "node_modules"]
  else []

/-- The three members of `DEPENDENCIES_FIELDS` from the types package. -/
inductive DepsField where
  | optionalDependencies
  | dependencies
  | devDependencies
deriving DecidableEq, Repr

/-- Source constant `DEPENDENCIES_FIELDS = ['optionalDependencies',
'dependencies', 'devDependencies']`. -/
def DEPENDENCIES_FIELDS : List DepsField :=
  [DepsField.optionalDependencies, DepsField.dependencies,
   DepsField.devDependencies]

/-- The `IncludedDependencies` record: one boolean per dependency category. -/
structure IncludedDependencies where
  optionalDependencies : Bool
  dependencies : Bool
  devDependencies : Bool
deriving DecidableEq, Repr

/-- Field access `included[depsField]`. -/
def IncludedDependencies.get (inc : IncludedDependencies) :
    DepsField → Bool
  | DepsField.optionalDependencies => inc.optionalDependencies
  | DepsField.dependencies => inc.dependencies
  | DepsField.devDependencies => inc.devDependencies

/-- The loop `for depsField of DEPENDENCIES_FIELDS: if include[depsField] !==
modules.included[depsField] throw INCLUDED_DEPS_CONFLICT`: an error is raised
exactly when some category differs. -/
def includedConflict (inc mi : IncludedDependencies) : Bool :=
  DEPENDENCIES_FIELDS.any fun f => inc.get f != mi.get f

/-- The `Registries` map: a default registry plus per-scope registries,
in canonical form so that ramda `equals` is structural equality. -/
structure Registries where
  default : String
  scopes : List (String × String)
deriving DecidableEq, Repr

/-- The fields of the persisted `Modules` descriptor (`.modules.yaml`) that
`validateModules` reads directly. The fields consulted only by the external
`checkCompatibility` collaborator are abstracted into the compat oracle. -/
structure Modules where
  publicHoistPattern : Option (List String)
  registries : Option Registries
  included : Option IncludedDependencies
deriving DecidableEq, Repr

/-- One element of the `projects` array passed to `validateModules`. -/
structure Project where
  modulesDir : String
  id : String
  rootDir : String
deriving DecidableEq, Repr

/-- The classified errors (`PnpmError` codes) that `validateModules` can raise;
`compatError` stands for an error propagated from the external
`checkCompatibility` collaborator. -/
inductive ErrCode where
  | PUBLIC_HOIST_PATTERN_DIFF
  | HOIST_PATTERN_DIFF
  | INCLUDED_DEPS_CONFLICT
  | REGISTRIES_MISMATCH
  | compatError (code : String)
deriving DecidableEq, Repr

/-- The `opts` record of `validateModules`. -/
structure ValidateOpts where
  currentHoistPattern : Option (List String)
  currentPublicHoistPattern : Option (List String)
  forceNewModules : Bool
  includeOpt : Option IncludedDependencies
  lockfileDir : String
  modulesDir : String
  registries : Registries
  storeDir : String
  virtualStoreDir : String
  hoistPattern : Option (List String)
  forceHoistPattern : Bool
  publicHoistPattern : Option (List String)
  forcePublicHoistPattern : Bool
  globalFlag : Bool
deriving Repr

/-- Body of one task of the `Promise.all(projects.map(...))` loop: run the
external compatibility check (`compat` oracle, keyed by the project module
dir since storeDir and virtualStoreDir are fixed for the call), then, when
`opts.lockfileDir !== project.rootDir && opts.include != null &&
modules.included`, compare the included dependency categories; the result is
the error the task throws, if any. -/
def projectCheck (compat : String → Option ErrCode) (modules : Modules)
    (opts : ValidateOpts) (project : Project) : Option ErrCode :=
  match compat project.modulesDir with
  | some e => some e
  | none =>
    if opts.lockfileDir != project.rootDir then
      match opts.includeOpt, modules.included with
      | some inc, some mi =>
        if includedConflict inc mi then some ErrCode.INCLUDED_DEPS_CONFLICT
        else none
      | _, _ => none
    else none

/-- The `Promise.all(projects.map(...))` phase: each failing task either purges
that project (when `forceNewModules`) or rejects with its error. The result is
the list of purged module dirs and the first error (in array order) when
`forceNewModules` is not set; purges happen only under `forceNewModules`,
errors propagate only without it. -/
def perProjectPhase (compat : String → Option ErrCode) (modules : Modules)
    (opts : ValidateOpts) : List Project → List String × Option ErrCode
  | [] => ([], none)
  | p :: rest =>
    match projectCheck compat modules opts p with
    | none => perProjectPhase compat modules opts rest
    | some e =>
      if opts.forceNewModules then
        (p.modulesDir :: (perProjectPhase compat modules opts rest).1,
          (perProjectPhase compat modules opts rest).2)
      else ([], some e)

/-- The hoist-pattern phase (source lines 245-260): only when
`opts.forceHoistPattern && rootProject != null`, compare
`opts.currentHoistPattern` with `opts.hoistPattern || undefined`; a mismatch
throws `HOIST_PATTERN_DIFF`, caught and turned into a purge of the root
project when `forceNewModules` is set. Returns (purged dirs, error). -/
def hoistPhase (opts : ValidateOpts) (rootProject : Option Project) :
    List String × Option ErrCode :=
  match rootProject with
  | some rp =>
    if opts.forceHoistPattern
        && !(opts.currentHoistPattern == jsOrUndefined opts.hoistPattern) then
      if opts.forceNewModules then ([rp.modulesDir], none)
      else ([], some ErrCode.HOIST_PATTERN_DIFF)
    else ([], none)
  | none => ([], none)

/-- The registries comparison `modules.registries != null &&
!equals(opts.registries, modules.registries)` (source line 284). -/
def regMismatch (modules : Modules) (opts : ValidateOpts) : Bool :=
  match modules.registries with
  | some mreg => !(opts.registries == mreg)
  | none => false

/-- Source lines 284-298: on a registry mismatch, either purge EVERY project
and return `{purged: true}` immediately (skipping the fallback), or throw
`REGISTRIES_MISMATCH`; otherwise, when some purge fired and there is no root
project, additionally purge `path.join(opts.lockfileDir, opts.modulesDir)`
and return the accumulated purged flag. -/
def validateModulesRegistries (modules : Modules) (projects : List Project)
    (opts : ValidateOpts) (rootProject : Option Project)
    (purges : List String) (purged : Bool) :
    List String × Except ErrCode Bool :=
  if regMismatch modules opts then
    if opts.forceNewModules then
      (purges ++ projects.map (fun p => p.modulesDir), Except.ok true)
    else (purges, Except.error ErrCode.REGISTRIES_MISMATCH)
  else if purged && rootProject.isNone then
    (purges ++ [pathJoin opts.lockfileDir opts.modulesDir], Except.ok purged)
  else (purges, Except.ok purged)

/-- The part of `validateModules` after the public-hoist-pattern phase:
hoist phase, then the per-project phase, then registries and the fallback
purge. An error thrown in an earlier phase propagates and stops the rest. -/
def validateModulesMain (compat : String → Option ErrCode) (modules : Modules)
    (projects : List Project) (opts : ValidateOpts)
    (rootProject : Option Project) : List String × Except ErrCode Bool :=
  match hoistPhase opts rootProject with
  | (purges0, some e) => (purges0, Except.error e)
  | (purges0, none) =>
    match perProjectPhase compat modules opts projects with
    | (purges1, some e) => (purges0 ++ purges1, Except.error e)
    | (purges1, none) =>
      validateModulesRegistries modules projects opts rootProject
        (purges0 ++ purges1) (!purges0.isEmpty || !purges1.isEmpty)

/-- Source `validateModules(modules, projects, opts)` (lines 202-298).
The returned pair is (module dirs handed to the purge engine, either the
thrown error or the returned `purged` flag). `rootProject` is
`projects.find(({id}) => id === '.')`. The public-hoist-pattern phase runs
first and, when it purges, returns `{purged: true}` immediately. -/
def validateModules (compat : String → Option ErrCode) (modules : Modules)
    (projects : List Project) (opts : ValidateOpts) :
    List String × Except ErrCode Bool :=
  let rootProject := projects.find? fun p => p.id == "."
  if opts.forcePublicHoistPattern
      && !(modules.publicHoistPattern == jsOrUndefined opts.publicHoistPattern)
  then
    if opts.forceNewModules then
      match rootProject with
      | some rp => ([rp.modulesDir], Except.ok true)
      | none => ([], Except.error ErrCode.PUBLIC_HOIST_PATTERN_DIFF)
    else ([], Except.error ErrCode.PUBLIC_HOIST_PATTERN_DIFF)
  else
    validateModulesMain compat modules projects opts rootProject

/-- Counts of the externally visible events of one `getContext` /
`getContextForSingleImporter` call: how often project state is read, how often
`validateModules` runs, and how often a validation-triggered purge fired. -/
structure SingleTrace where
  reads : Nat
  validations : Nat
  purges : Nat
deriving DecidableEq, Repr

/-- Skeleton of `getContextForSingleImporter` (source lines 404-457): every
invocation first calls `readProjectsContext` (one read; `readModules k` is
what the k-th read reports as the persisted descriptor); when a descriptor is
present AND `alreadyPurged` is false it runs `validateModules` once
(`validatePurged` abstracts its purged result) and, if that purged, recurses
with `alreadyPurged = true`, which skips the whole validation block. -/
def singleImporterTrace (readModules : Nat → Option Modules)
    (validatePurged : Modules → Bool) (k : Nat) (alreadyPurged : Bool) :
    SingleTrace :=
  if alreadyPurged then ⟨1, 0, 0⟩
  else
    match readModules k with
    | none => ⟨1, 0, 0⟩
    | some m =>
      if validatePurged m then
        let t := singleImporterTrace readModules validatePurged (k + 1) true
        ⟨1 + t.reads, 1 + t.validations, 1 + t.purges⟩
      else ⟨1, 1, 0⟩
termination_by (if alreadyPurged then 0 else 1)
decreasing_by simp_all

/-- Skeleton of the validation/retry logic of `getContext` (source lines
106-134): one `readProjectsContext`, then, if it reported a descriptor, one
`validateModules`; when that purged, one more `readProjectsContext` and no
re-validation (there is no loop in the source). -/
def getContextValidationTrace (modules : Option Modules)
    (validatePurged : Modules → Bool) : SingleTrace :=
  match modules with
  | none => ⟨1, 0, 0⟩
  | some m => if validatePurged m then ⟨2, 1, 1⟩ else ⟨1, 1, 0⟩

/-- The inputs of the pure context-path assembly done by `getContext` after
validation (source lines 151-164). -/
structure CtxPathInputs where
  extraBinPaths : List String
  hoistPattern : Option (List String)
  currentHoistPattern : Option (List String)
  extendNodePath : Option Bool
  nodeLinker : NodeLinker
  virtualStoreDir : String
deriving Repr

/-- The path-related fields of the assembled context. -/
structure CtxPaths where
  extraBinPaths : List String
  extraNodePaths : List String
  hoistedModulesDir : String
  hoistPattern : Option (List String)
deriving DecidableEq, Repr

/-- Source lines 151-164 of `getContext` (the single-importer variant, lines
460-470, is identical): `hoistedModulesDir = path.join(virtualStoreDir,
'node_modules')`; the `.bin` dir under it is unshifted onto the extra bin
paths when `opts.hoistPattern?.length` is truthy (the REQUESTED pattern); the
effective pattern `importersContext.currentHoistPattern ?? opts.hoistPattern`
is computed afterwards and feeds `getExtraNodePaths` and the context field. -/
def assembleContextPaths (i : CtxPathInputs) : CtxPaths :=
  let hoistedModulesDir := pathJoin i.virtualStoreDir "node_modules"
  let extraBinPaths :=
    if jsNonEmpty i.hoistPattern then
      pathJoin hoistedModulesDir ".bin" :: i.extraBinPaths
    else i.extraBinPaths
  let hoistPattern := nullishCoalesce i.currentHoistPattern i.hoistPattern
  { extraBinPaths := extraBinPaths
    extraNodePaths := getExtraNodePaths i.extendNodePath hoistPattern
      i.nodeLinker i.virtualStoreDir
    hoistedModulesDir := hoistedModulesDir
    hoistPattern := hoistPattern }

/-! Concrete fixtures used by witnesses and counterexamples. -/

/-- A compatibility oracle that accepts every project. -/
def compat0 : String → Option ErrCode := fun _ => none

/-- A compatibility oracle that rejects every project. -/
def compatBad : String → Option ErrCode :=
  fun _ => some (ErrCode.compatError "ERR_PNPM_UNEXPECTED_STORE")

/-- A sample registry map. -/
def reg0 : Registries := ⟨"https://registry.npmjs.org/", []⟩

/-- A second registry map, different from reg0. -/
def regAlt : Registries := ⟨"https://example.com/registry/", []⟩

/-- A descriptor recorded with reg0 and nothing else. -/
def modules0 : Modules := ⟨none, some reg0, none⟩

/-- A descriptor recorded with regAlt. -/
def modulesAlt : Modules := ⟨none, some regAlt, none⟩

/-- The root project (id "."). -/
def proj0 : Project := ⟨"/w/node_modules", ".", "/w"⟩

/-- A non-root project (id "p1"). -/
def projB : Project := ⟨"/m/p1/node_modules", "p1", "/m/p1"⟩

/-- Options with a recorded hoist pattern that differs from the requested one
but with `forceHoistPattern` NOT set (and no force-new-modules). -/
def opts0 : ValidateOpts :=
  ⟨some ["a"], none, false, none, "/w", "node_modules", reg0, "/s",
   "/w/node_modules/.pnpm", none, false, none, false, false⟩

/-- Options requesting the EMPTY hoist pattern (recorded: absent) with
`forceHoistPattern` set and no force-new-modules. -/
def optsEmptyPat : ValidateOpts :=
  ⟨none, none, false, none, "/w", "node_modules", reg0, "/s",
   "/w/node_modules/.pnpm", some [], true, none, false, false⟩

/-- Options whose requested registries (reg0) differ from a recorded regAlt,
with force-new-modules set and everything else quiet. -/
def optsRegForce : ValidateOpts :=
  ⟨none, none, true, none, "/m", "node_modules", reg0, "/s",
   "/m/node_modules/.pnpm", none, false, none, false, false⟩

/-- Like optsRegForce but without force-new-modules. -/
def optsRegNoForce : ValidateOpts :=
  ⟨none, none, false, none, "/m", "node_modules", reg0, "/s",
   "/m/node_modules/.pnpm", none, false, none, false, false⟩

/-- Demanded and recorded included dependency categories that differ in the
devDependencies field. -/
def incAll : IncludedDependencies := ⟨true, true, true⟩

/-- Recorded categories missing devDependencies. -/
def incNoDev : IncludedDependencies := ⟨true, true, false⟩

/-- A descriptor carrying recorded included categories incNoDev. -/
def modulesInc : Modules := ⟨none, none, some incNoDev⟩

/-- Options requesting incAll below the lockfile root. -/
def optsInc : ValidateOpts :=
  ⟨none, none, false, some incAll, "/m", "node_modules", reg0, "/s",
   "/m/node_modules/.pnpm", none, false, none, false, false⟩

/-- Context-path inputs where the persisted pattern is non-empty but the
requested one is absent. -/
def ctxI0 : CtxPathInputs :=
  ⟨[], none, some ["a"], none, NodeLinker.isolated, "/v"⟩

/-- Context-path inputs with a non-empty requested pattern. -/
def ctxI1 : CtxPathInputs :=
  ⟨["x"], some ["a"], none, none, NodeLinker.isolated, "/v"⟩

/-- Options with a recorded hoist pattern differing from the requested one,
with `forceHoistPattern` set and no force-new-modules. -/
def optsHoistForce : ValidateOpts :=
  ⟨some ["a"], none, false, none, "/w", "node_modules", reg0, "/s",
   "/w/node_modules/.pnpm", none, true, none, false, false⟩

/-! Helper lemmas. -/

/-- Joining a non-empty component onto a path yields a strictly longer string,
so a removed entry path never equals the directory itself. -/
theorem pathJoin_ne_left (a b : String) : pathJoin a b ≠ a := by
  intro h
  have h2 := congrArg String.length h
  rw [pathJoin, String.length_append, String.length_append] at h2
  have h1 : String.length "/" = 1 := rfl
  omega

/-- Under force-new-modules the hoist phase never reports an error. -/
theorem hoistPhase_snd_force (opts : ValidateOpts) (r : Option Project)
    (h : opts.forceNewModules = true) : (hoistPhase opts r).2 = none := by
  cases r with
  | none => rfl
  | some rp =>
    simp only [hoistPhase, h, if_true]
    split <;> rfl

/-- Under force-new-modules the per-project phase never reports an error. -/
theorem perProjectPhase_snd_force (compat : String → Option ErrCode)
    (modules : Modules) (opts : ValidateOpts) (h : opts.forceNewModules = true) :
    ∀ ps : List Project, (perProjectPhase compat modules opts ps).2 = none := by
  intro ps
  induction ps with
  | nil => rfl
  | cons p rest ih =>
    simp only [perProjectPhase]
    cases hc : projectCheck compat modules opts p with
    | none => exact ih
    | some e => simp [h, ih]

/-- When every project passes its checks, the per-project phase is a no-op. -/
theorem perProjectPhase_all_ok (compat : String → Option ErrCode)
    (modules : Modules) (opts : ValidateOpts) (ps : List Project)
    (h : ∀ p ∈ ps, projectCheck compat modules opts p = none) :
    perProjectPhase compat modules opts ps = ([], none) := by
  induction ps with
  | nil => rfl
  | cons p rest ih =>
    simp only [perProjectPhase]
    rw [h p (by simp)]
    exact ih fun q hq => h q (by simp [hq])

/-- Under force-new-modules a failing project makes the per-project phase
record at least one purge. -/
theorem perProjectPhase_fst_ne_nil (compat : String → Option ErrCode)
    (modules : Modules) (opts : ValidateOpts) (hf : opts.forceNewModules = true)
    (p : Project) (e : ErrCode) :
    ∀ ps : List Project, p ∈ ps → projectCheck compat modules opts p = some e →
      (perProjectPhase compat modules opts ps).1 ≠ [] := by
  intro ps
  induction ps with
  | nil => intro h; simp at h
  | cons q rest ih =>
    intro hmem hcheck
    simp only [perProjectPhase]
    cases hq : projectCheck compat modules opts q with
    | some e2 => simp [hf]
    | none =>
      rcases List.mem_cons.mp hmem with hpq | hrest
      · rw [hpq] at hcheck
        rw [hq] at hcheck
        exact absurd hcheck (by simp)
      · exact ih hrest hcheck

/-- When the public-hoist-pattern phase does not fire, validateModules is its
main part. -/
theorem validateModules_no_pub (compat : String → Option ErrCode)
    (modules : Modules) (projects : List Project) (opts : ValidateOpts)
    (hpub : (opts.forcePublicHoistPattern &&
      !(modules.publicHoistPattern == jsOrUndefined opts.publicHoistPattern))
      = false) :
    validateModules compat modules projects opts =
      validateModulesMain compat modules projects opts
        (projects.find? fun p => p.id == ".") := by
  simp [validateModules, hpub]

/-- A differing hoist pattern with the hoist-pattern force flag set, a root
project present and no force-new-modules makes validateModules throw
HOIST_PATTERN_DIFF with no purge. -/
theorem hoist_diff_aux (compat : String → Option ErrCode) (modules : Modules)
    (projects : List Project) (opts : ValidateOpts) (rp : Project)
    (hroot : (projects.find? fun p => p.id == ".") = some rp)
    (hpub : (opts.forcePublicHoistPattern &&
      !(modules.publicHoistPattern == jsOrUndefined opts.publicHoistPattern))
      = false)
    (hfh : opts.forceHoistPattern = true)
    (hdiff : opts.currentHoistPattern ≠ jsOrUndefined opts.hoistPattern)
    (hnf : opts.forceNewModules = false) :
    validateModules compat modules projects opts =
      ([], Except.error ErrCode.HOIST_PATTERN_DIFF) := by
  have hb : (opts.currentHoistPattern == jsOrUndefined opts.hoistPattern)
      = false := beq_eq_false_iff_ne.mpr hdiff
  rw [validateModules_no_pub compat modules projects opts hpub, hroot]
  simp [validateModulesMain, hoistPhase, hfh, hb, hnf]

/-- An invocation of the single-importer skeleton with alreadyPurged = true
performs one read and neither validates nor purges nor recurses. -/
theorem singleImporterTrace_true_eq (rm : Nat → Option Modules)
    (vp : Modules → Bool) (k : Nat) :
    singleImporterTrace rm vp k true = ⟨1, 0, 0⟩ := by
  unfold singleImporterTrace
  simp

/-- Full characterization of a fresh single-importer invocation. -/
theorem singleImporterTrace_false_eq (rm : Nat → Option Modules)
    (vp : Modules → Bool) (k : Nat) :
    singleImporterTrace rm vp k false =
      (match rm k with
       | none => (⟨1, 0, 0⟩ : SingleTrace)
       | some m => if vp m then ⟨2, 1, 1⟩ else ⟨1, 1, 0⟩) := by
  unfold singleImporterTrace
  cases hr : rm k with
  | none => simp
  | some m =>
    by_cases hv : vp m = true
    · simp [hv, singleImporterTrace_true_eq]
    · simp [hv]

/-! Claim theorems. -/

/-- C7: for every purge, a missing module directory (an ENOENT failure of the
underlying removal) is a success and a no-op, a successful removal stays a
success, and every I/O error with any other code propagates to the caller. -/
theorem purge_enoent_tolerated (e : FsError) (h : e.code ≠ "ENOENT") :
    purgeModulesDirsOfImporter (Except.error ⟨"ENOENT"⟩) = Except.ok () ∧
    purgeModulesDirsOfImporter (Except.ok ()) = Except.ok () ∧
    purgeModulesDirsOfImporter (Except.error e) = Except.error e := by
  refine ⟨rfl, rfl, ?_⟩
  simp [purgeModulesDirsOfImporter, h]

/-- Witness for C7 at a concrete non-ENOENT error. -/
theorem purge_enoent_tolerated_witness :
    purgeModulesDirsOfImporter (Except.error ⟨"EACCES"⟩) =
      Except.error ⟨"EACCES"⟩ :=
  (purge_enoent_tolerated ⟨"EACCES"⟩ (by decide)).2.2

/-- C9: getExtraNodePaths returns the one-element list
[virtualStoreDir/node_modules] exactly when the extend-node-path flag is true
(defaulting to true when absent), the node linker mode is isolated, and the
hoist pattern is a non-empty list; in every other case it returns []. -/
theorem getExtraNodePaths_spec (ext : Option Bool) (hp : Option (List String))
    (nl : NodeLinker) (vsd : String) :
    (getExtraNodePaths ext hp nl vsd = [pathJoin vsd "node_modules"] ↔
      (ext.getD true = true ∧ nl = NodeLinker.isolated ∧
        jsNonEmpty hp = true)) ∧
    (getExtraNodePaths ext hp nl vsd = [pathJoin vsd "node_modules"] ∨
      getExtraNodePaths ext hp nl vsd = []) := by
  unfold getExtraNodePaths
  split
  next hc =>
    simp only [Bool.and_eq_true, beq_iff_eq] at hc
    simp [hc.1.1, hc.1.2, hc.2]
  next hc =>
    refine ⟨⟨fun hlist => by simp at hlist, fun hcond => ?_⟩, Or.inr rfl⟩
    have hb : (ext.getD true && (nl == NodeLinker.isolated)
        && jsNonEmpty hp) = true := by
      simp [Bool.and_eq_true, beq_iff_eq, hcond.1, hcond.2.1, hcond.2.2]
    exact absurd hb hc

/-- C1: an entry of a module directory listing is protected from removal if
and only if its name starts with a dot, is neither .bin nor .modules.yaml,
and its joined path is not the virtual-store directory; every other entry is
removed, and the removal targets are always strictly below the module
directory, so the directory itself is never removed. -/
theorem removeContentsOfDir_spec (dir vsd : String) (items : List String)
    (item : String) (hmem : item ∈ items) :
    (item ∉ removeContentsOfDir dir vsd items ↔
      (startsWithDot item = true ∧ item ≠ ".bin" ∧ item ≠ ".modules.yaml" ∧
        pathJoin dir item ≠ vsd)) ∧
    ∀ r ∈ removeContentsOfDir dir vsd items, pathJoin dir r ≠ dir := by
  constructor
  · simp [removeContentsOfDir, List.mem_filter, hmem, dirsAreEqual,
      Bool.and_eq_true, bne_iff_ne, Bool.not_eq_true', beq_iff_eq, and_assoc]
  · intro r _
    exact pathJoin_ne_left dir r

/-- Witness for C1: on a concrete listing, the unrelated dotfile .git is
protected while .bin, the virtual store entry .pnpm and a plain package
directory are removed, and no removal target equals the directory. -/
theorem removeContentsOfDir_spec_witness :
    ".git" ∉ removeContentsOfDir "/w/nm" "/w/nm/.pnpm"
      [".git", ".bin", ".pnpm", "lodash"] ∧
    ".pnpm" ∈ removeContentsOfDir "/w/nm" "/w/nm/.pnpm"
      [".git", ".bin", ".pnpm", "lodash"] := by
  have h := removeContentsOfDir_spec "/w/nm" "/w/nm/.pnpm"
    [".git", ".bin", ".pnpm", "lodash"] ".git" (by decide)
  refine ⟨h.1.mpr ⟨by decide, by decide, by decide, by decide⟩, by decide⟩

/-- C2 (amended): if the recorded current hoist pattern differs from the
requested one AND the hoist-pattern force flag is set AND a root project
(id ".") is present AND the public-hoist-pattern phase does not preempt, then
without the new-modules force flag validateModules fails with
HOIST_PATTERN_DIFF and performs no purge. (As stated the claim is false: the
comparison only runs under forceHoistPattern with a root project.) -/
theorem validateModules_hoist_pattern_diff (compat : String → Option ErrCode)
    (modules : Modules) (projects : List Project) (opts : ValidateOpts)
    (rp : Project)
    (hroot : (projects.find? fun p => p.id == ".") = some rp)
    (hpub : (opts.forcePublicHoistPattern &&
      !(modules.publicHoistPattern == jsOrUndefined opts.publicHoistPattern))
      = false)
    (hfh : opts.forceHoistPattern = true)
    (hdiff : opts.currentHoistPattern ≠ jsOrUndefined opts.hoistPattern)
    (hnf : opts.forceNewModules = false) :
    validateModules compat modules projects opts =
      ([], Except.error ErrCode.HOIST_PATTERN_DIFF) :=
  hoist_diff_aux compat modules projects opts rp hroot hpub hfh hdiff hnf

/-- Witness for C2 (amended) at a concrete input. -/
theorem validateModules_hoist_pattern_diff_witness :
    validateModules compat0 modules0 [proj0] optsHoistForce =
      ([], Except.error ErrCode.HOIST_PATTERN_DIFF) :=
  validateModules_hoist_pattern_diff compat0 modules0 [proj0] optsHoistForce
    proj0 (by decide) rfl rfl (by decide) rfl

/-- Counterexample to C2 as stated: recorded pattern ["a"], requested pattern
absent (they differ), new-modules force flag not set — yet validateModules
succeeds with purged = false, because forceHoistPattern is not set, so the
comparison never runs and no HOIST_PATTERN_DIFF is raised. -/
theorem validateModules_hoist_diff_cex :
    opts0.currentHoistPattern ≠ jsOrUndefined opts0.hoistPattern ∧
    opts0.forceNewModules = false ∧
    validateModules compat0 modules0 [proj0] opts0 =
      ([], Except.ok false) := by
  exact ⟨by decide, rfl, rfl⟩

/-- C10 (amended): the `pattern || undefined` normalization maps undefined to
undefined but keeps every array (arrays, including the empty one, are truthy
in JavaScript), so an empty requested pattern is NOT normalized to absent and
DOES mismatch an absent recorded pattern: with an empty requested hoist
pattern, an absent recorded one, forceHoistPattern set, a root project, no
public-hoist preemption and no new-modules force, validateModules fails with
HOIST_PATTERN_DIFF. -/
theorem empty_pattern_not_normalized (compat : String → Option ErrCode)
    (modules : Modules) (projects : List Project) (opts : ValidateOpts)
    (rp : Project)
    (hroot : (projects.find? fun p => p.id == ".") = some rp)
    (hpub : (opts.forcePublicHoistPattern &&
      !(modules.publicHoistPattern == jsOrUndefined opts.publicHoistPattern))
      = false)
    (hfh : opts.forceHoistPattern = true)
    (hcur : opts.currentHoistPattern = none)
    (hreq : opts.hoistPattern = some [])
    (hnf : opts.forceNewModules = false) :
    jsOrUndefined opts.hoistPattern = some [] ∧
    validateModules compat modules projects opts =
      ([], Except.error ErrCode.HOIST_PATTERN_DIFF) := by
  refine ⟨by rw [hreq]; rfl, ?_⟩
  apply hoist_diff_aux compat modules projects opts rp hroot hpub hfh ?_ hnf
  rw [hcur, hreq]
  decide

/-- Witness for C10 (amended) at a concrete input. -/
theorem empty_pattern_not_normalized_witness :
    validateModules compat0 modules0 [proj0] optsEmptyPat =
      ([], Except.error ErrCode.HOIST_PATTERN_DIFF) :=
  (empty_pattern_not_normalized compat0 modules0 [proj0] optsEmptyPat proj0
    (by decide) rfl rfl rfl rfl rfl).2

/-- Counterexample to C10 as stated: an empty requested pattern is kept as the
empty array by `|| undefined`, compares unequal to an absent recorded pattern,
and the mismatch IS detected (HOIST_PATTERN_DIFF at a concrete input), so the
code does distinguish an empty list from hoisting disabled. -/
theorem empty_pattern_cex :
    jsOrUndefined (some ([] : List String)) = some [] ∧
    ((some ([] : List String) == (none : Option (List String)))) = false ∧
    validateModules compat0 modules0 [proj0] optsEmptyPat =
      ([], Except.error ErrCode.HOIST_PATTERN_DIFF) := by
  exact ⟨rfl, rfl, rfl⟩

/-- C6: with the external compatibility check passing and both the requested
and the recorded included-category sets present, a project's included-deps
check raises INCLUDED_DEPS_CONFLICT exactly when the project's root dir
differs from the lockfile dir and some category differs; at the lockfile root
the project check never fails. -/
theorem projectCheck_included_iff (compat : String → Option ErrCode)
    (modules : Modules) (opts : ValidateOpts) (project : Project)
    (inc mi : IncludedDependencies)
    (hc : compat project.modulesDir = none)
    (hinc : opts.includeOpt = some inc) (hmi : modules.included = some mi) :
    (projectCheck compat modules opts project =
        some ErrCode.INCLUDED_DEPS_CONFLICT ↔
      (opts.lockfileDir ≠ project.rootDir ∧ includedConflict inc mi = true)) ∧
    (opts.lockfileDir = project.rootDir →
      projectCheck compat modules opts project = none) := by
  simp only [projectCheck, hc, hinc, hmi]
  by_cases hld : opts.lockfileDir = project.rootDir
  · simp [hld]
  · by_cases hcf : includedConflict inc mi = true
    · simp [bne_iff_ne, hld, hcf]
    · simp [bne_iff_ne, hld, hcf]

/-- Witness for C6: below the lockfile root a differing category set is
reported as INCLUDED_DEPS_CONFLICT. -/
theorem projectCheck_included_iff_witness :
    projectCheck compat0 modulesInc optsInc projB =
      some ErrCode.INCLUDED_DEPS_CONFLICT :=
  (projectCheck_included_iff compat0 modulesInc optsInc projB incAll incNoDev
    rfl rfl rfl).1.mpr ⟨by decide, by decide⟩

/-- C3: the validation-retry recursion is bounded: in both the getContext
skeleton and the single-importer skeleton a call validates at most once,
purges at most once and reads project state at most twice, and when a purge
fired the state was re-read exactly once and not re-validated (the recursive
single-importer call passes alreadyPurged = true, which skips validation). -/
theorem retry_at_most_once (rm : Nat → Option Modules) (vp : Modules → Bool)
    (k : Nat) (m : Option Modules) (vp2 : Modules → Bool) :
    (singleImporterTrace rm vp k false).validations ≤ 1 ∧
    (singleImporterTrace rm vp k false).purges ≤ 1 ∧
    (singleImporterTrace rm vp k false).reads ≤ 2 ∧
    ((singleImporterTrace rm vp k false).purges = 1 →
      (singleImporterTrace rm vp k false).reads = 2 ∧
      (singleImporterTrace rm vp k false).validations = 1) ∧
    (getContextValidationTrace m vp2).validations ≤ 1 ∧
    (getContextValidationTrace m vp2).purges ≤ 1 ∧
    (getContextValidationTrace m vp2).reads ≤ 2 := by
  have hg : (getContextValidationTrace m vp2).validations ≤ 1 ∧
      (getContextValidationTrace m vp2).purges ≤ 1 ∧
      (getContextValidationTrace m vp2).reads ≤ 2 := by
    cases m with
    | none => simp [getContextValidationTrace]
    | some mm =>
      by_cases hv : vp2 mm = true <;> simp [getContextValidationTrace, hv]
  rw [singleImporterTrace_false_eq]
  cases rm k with
  | none => simpa using hg
  | some mm =>
    by_cases hv : vp mm = true
    · simpa [hv] using hg
    · simpa [hv] using hg

/-- Witness for C3: with a descriptor present and a purging validation, the
single-importer skeleton reads twice and validates once. -/
theorem retry_at_most_once_witness :
    (singleImporterTrace (fun _ => some modules0) (fun _ => true) 0
      false).reads = 2 ∧
    (singleImporterTrace (fun _ => some modules0) (fun _ => true) 0
      false).validations = 1 :=
  (retry_at_most_once (fun _ => some modules0) (fun _ => true) 0
    (some modules0) (fun _ => true)).2.2.2.1
    (by rw [singleImporterTrace_false_eq]; rfl)

/-- C8 (amended): the hoisted-executables bin dir
(virtualStoreDir/node_modules/.bin) is prepended to the extra bin paths
exactly when the REQUESTED hoist pattern (opts.hoistPattern) is a non-empty
list; the effective pattern (persisted ?? requested) is computed afterwards
and determines only the extra node paths and the context's hoistPattern
field. -/
theorem extraBinPaths_requested_pattern (i : CtxPathInputs)
    (hnotin : pathJoin (pathJoin i.virtualStoreDir "node_modules") ".bin" ∉
      i.extraBinPaths) :
    (pathJoin (pathJoin i.virtualStoreDir "node_modules") ".bin" ∈
        (assembleContextPaths i).extraBinPaths ↔
      jsNonEmpty i.hoistPattern = true) ∧
    (assembleContextPaths i).hoistPattern =
      nullishCoalesce i.currentHoistPattern i.hoistPattern ∧
    (assembleContextPaths i).extraNodePaths =
      getExtraNodePaths i.extendNodePath
        (nullishCoalesce i.currentHoistPattern i.hoistPattern)
        i.nodeLinker i.virtualStoreDir := by
  refine ⟨?_, rfl, rfl⟩
  by_cases hnp : jsNonEmpty i.hoistPattern = true
  · simp [assembleContextPaths, hnp]
  · simp [assembleContextPaths, hnp, hnotin]

/-- Witness for C8 (amended): a non-empty requested pattern prepends the
hoisted bin dir. -/
theorem extraBinPaths_requested_pattern_witness :
    pathJoin (pathJoin ctxI1.virtualStoreDir "node_modules") ".bin" ∈
      (assembleContextPaths ctxI1).extraBinPaths :=
  (extraBinPaths_requested_pattern ctxI1 (by decide)).1.mpr rfl

/-- Counterexample to C8 as stated: with persisted pattern ["a"] and requested
pattern absent, the effective pattern is non-empty, yet no bin path is
prepended — the code tests the requested pattern, not the effective one. -/
theorem extraBinPaths_effective_cex :
    jsNonEmpty (assembleContextPaths ctxI0).hoistPattern = true ∧
    (assembleContextPaths ctxI0).extraBinPaths = [] :=
  ⟨rfl, rfl⟩

/-- C4: when the registry comparison is reached (no public-hoist preemption),
a recorded registry map differing from the requested one causes: with the
new-modules force flag, a purge of EVERY project's module dir and an
immediate purged = true return; without it (and with the earlier hoist and
per-project checks quiet) the REGISTRIES_MISMATCH failure with no purge. -/
theorem validateModules_registries_spec (compat : String → Option ErrCode)
    (modules : Modules) (projects : List Project) (opts : ValidateOpts)
    (mreg : Registries)
    (hpub : (opts.forcePublicHoistPattern &&
      !(modules.publicHoistPattern == jsOrUndefined opts.publicHoistPattern))
      = false)
    (hreg : modules.registries = some mreg)
    (hne : opts.registries ≠ mreg) :
    (opts.forceNewModules = true →
      (∀ p ∈ projects,
        p.modulesDir ∈ (validateModules compat modules projects opts).1) ∧
      (validateModules compat modules projects opts).2 = Except.ok true) ∧
    (opts.forceNewModules = false →
      (∀ p ∈ projects, projectCheck compat modules opts p = none) →
      hoistPhase opts (projects.find? fun p => p.id == ".") = ([], none) →
      validateModules compat modules projects opts =
        ([], Except.error ErrCode.REGISTRIES_MISMATCH)) := by
  have hrm : regMismatch modules opts = true := by
    simp only [regMismatch, hreg]
    simp [beq_eq_false_iff_ne.mpr hne]
  constructor
  · intro hf
    rw [validateModules_no_pub compat modules projects opts hpub]
    rcases hh : hoistPhase opts (projects.find? fun p => p.id == ".")
      with ⟨p0, e0⟩
    have he0 : e0 = none := by
      have h2 := hoistPhase_snd_force opts
        (projects.find? fun p => p.id == ".") hf
      rw [hh] at h2
      exact h2
    subst he0
    rcases hpp : perProjectPhase compat modules opts projects with ⟨p1, e1⟩
    have he1 : e1 = none := by
      have h2 := perProjectPhase_snd_force compat modules opts hf projects
      rw [hpp] at h2
      exact h2
    subst he1
    simp only [validateModulesMain, hh, hpp]
    simp only [validateModulesRegistries, hrm, hf, if_true]
    constructor
    · intro p hp
      exact List.mem_append_right _ (List.mem_map_of_mem _ hp)
    · trivial
  · intro hf hall hhoist
    rw [validateModules_no_pub compat modules projects opts hpub]
    simp only [validateModulesMain, hhoist,
      perProjectPhase_all_ok compat modules opts projects hall]
    simp [validateModulesRegistries, hrm, hf]

/-- Witness for C4: a concrete two-project set with mismatching registries and
force-new-modules purges both module dirs and returns purged = true. -/
theorem validateModules_registries_spec_witness :
    proj0.modulesDir ∈
      (validateModules compat0 modulesAlt [proj0, projB] optsRegForce).1 ∧
    projB.modulesDir ∈
      (validateModules compat0 modulesAlt [proj0, projB] optsRegForce).1 ∧
    (validateModules compat0 modulesAlt [proj0, projB] optsRegForce).2 =
      Except.ok true := by
  have h := (validateModules_registries_spec compat0 modulesAlt [proj0, projB]
    optsRegForce regAlt rfl rfl (by decide)).1 rfl
  exact ⟨h.1 proj0 (by simp), h.1 projB (by simp), h.2⟩

/-- C5 (amended): when at least one PER-PROJECT purge fired, no project has id
".", and the registry comparison does not take its early-return branch, the
lockfile-root module dir (lockfileDir joined with the modules dir name) is
additionally purged and validateModules returns purged = true. (As stated the
claim is false: a purge fired by the registry branch returns immediately and
skips the fallback.) -/
theorem validateModules_fallback_purge (compat : String → Option ErrCode)
    (modules : Modules) (projects : List Project) (opts : ValidateOpts)
    (p : Project) (e : ErrCode)
    (hroot : (projects.find? fun pr => pr.id == ".") = none)
    (hpub : (opts.forcePublicHoistPattern &&
      !(modules.publicHoistPattern == jsOrUndefined opts.publicHoistPattern))
      = false)
    (hf : opts.forceNewModules = true)
    (hmem : p ∈ projects)
    (hfail : projectCheck compat modules opts p = some e)
    (hreg : regMismatch modules opts = false) :
    pathJoin opts.lockfileDir opts.modulesDir ∈
      (validateModules compat modules projects opts).1 ∧
    (validateModules compat modules projects opts).2 = Except.ok true := by
  rw [validateModules_no_pub compat modules projects opts hpub, hroot]
  rcases hpp : perProjectPhase compat modules opts projects with ⟨p1, e1⟩
  have he1 : e1 = none := by
    have h2 := perProjectPhase_snd_force compat modules opts hf projects
    rw [hpp] at h2
    exact h2
  subst he1
  have hne2 : p1 ≠ [] := by
    have h2 := perProjectPhase_fst_ne_nil compat modules opts hf p e projects
      hmem hfail
    rw [hpp] at h2
    exact h2
  have hie : p1.isEmpty = false := by
    cases p1 with
    | nil => exact absurd rfl hne2
    | cons a l => rfl
  simp only [validateModulesMain, hoistPhase, hpp]
  refine ⟨?_, ?_⟩ <;> simp [validateModulesRegistries, hreg, hie]

/-- Witness for C5 (amended): a compat-failing non-root project with force set
and matching registries triggers the fallback purge of the lockfile-root
module dir. -/
theorem validateModules_fallback_purge_witness :
    pathJoin optsRegForce.lockfileDir optsRegForce.modulesDir ∈
      (validateModules compatBad modules0 [projB] optsRegForce).1 ∧
    (validateModules compatBad modules0 [projB] optsRegForce).2 =
      Except.ok true :=
  validateModules_fallback_purge compatBad modules0 [projB] optsRegForce projB
    (ErrCode.compatError "ERR_PNPM_UNEXPECTED_STORE") (by decide) rfl rfl
    (by decide) rfl rfl

/-- Counterexample to C5 as stated: with no root project, mismatching
registries and force-new-modules, a purge action fires (the one project's
module dir is purged) but the lockfile-root module dir is NOT purged, because
the registry branch returns immediately before the fallback check. -/
theorem validateModules_fallback_cex :
    (([projB].find? fun pr => pr.id == ".") = none) ∧
    validateModules compat0 modulesAlt [projB] optsRegForce =
      (["/m/p1/node_modules"], Except.ok true) ∧
    pathJoin optsRegForce.lockfileDir optsRegForce.modulesDir ∉
      (validateModules compat0 modulesAlt [projB] optsRegForce).1 := by
  refine ⟨by decide, rfl, by decide⟩

end GetContext
